import Mathlib

/-!
Verification of the ffmpeg_encoder stream supervisor.

The Python application in src/develop.py keeps per-channel state in global
dictionaries keyed by channel name (processes, udp_listeners,
udp_packet_timestamps, udp_listener_threads, udp_listener_active_flags,
stream_stop_requested) and derives one authoritative status string per
channel.  We embed those dictionaries as association lists over String keys
with Python dict semantics (assignment replaces, `del` removes, `in` tests
membership), and each relevant method as a pure transition function on an
explicit application state.  Wall-clock times (time.time()) are embedded as
integers; only orderings and differences of times matter to the claims.
-/

/-- Association-list lookup, mirroring Python's `d[k]` / `d.get(k)`. -/
def dictLookup {α : Type} : List (String × α) → String → Option α
  | [], _ => none
  | (k, v) :: rest, key => if k = key then some v else dictLookup rest key

/-- Association-list update, mirroring Python's `d[k] = v`. -/
def dictInsert {α : Type} : List (String × α) → String → α → List (String × α)
  | [], k, v => [(k, v)]
  | (k', v') :: rest, k, v =>
    if k' = k then (k, v) :: rest else (k', v') :: dictInsert rest k v

/-- Association-list removal, mirroring Python's `del d[k]` (total: removing an
absent key leaves the list unchanged, matching the guarded deletes in the
source). -/
def dictErase {α : Type} : List (String × α) → String → List (String × α)
  | [], _ => []
  | (k', v) :: rest, k =>
    if k' = k then dictErase rest k else (k', v) :: dictErase rest k

/-- Membership test, mirroring Python's `k in d`. -/
def dictContains {α : Type} (d : List (String × α)) (k : String) : Bool :=
  (dictLookup d k).isSome

/-- Character-list version of Python's `str.startswith`. -/
def listLeads : List Char → List Char → Bool
  | [], _ => true
  | _ :: _, [] => false
  | a :: as, b :: bs => a = b && listLeads as bs

/-- Substring occurrence on character lists. -/
def listHasSub (needle : List Char) : List Char → Bool
  | [] => listLeads needle []
  | c :: cs => listLeads needle (c :: cs) || listHasSub needle cs

/-- Python's `needle in hay` substring test. -/
def strContains (hay needle : String) : Bool :=
  listHasSub needle.data hay.data

/-- Python's `s.startswith(p)`. -/
def strStarts (s p : String) : Bool :=
  listLeads p.data s.data

/-- One elementary stream as reported by ffprobe (only the codec type is
consulted by the source). -/
structure StreamInfo where
  codec_type : String
deriving DecidableEq

/-- One program/service from an ffprobe scan: `program_id`,
`tags.service_name` (absent tags modelled as `none`, defaulted to
"Unknown" as in the source), and its elementary streams. -/
structure ProgramInfo where
  program_id : String
  service_name : Option String
  streams : List StreamInfo
deriving DecidableEq

/-- The slice of a channel's configuration dictionary consulted by the
embedded methods. -/
structure ChannelConfig where
  input_type : String
  input_ip : String
  input_port : String
  input_url : String
  srt_mode : String
  program_id : String
deriving DecidableEq

/-- One entry of `self.channels`: configuration, display name, the stored
`input_stream_status` string, the last scan's program list and the
derived has-video flag. -/
structure ChannelData where
  config : ChannelConfig
  display_name : String
  input_stream_status : String
  programs : List ProgramInfo
  has_any_video_stream_detected : Bool
deriving DecidableEq

/-- An encoder process handle: `poll` is `none` while the process runs and
`some code` once it has exited, mirroring `subprocess.Popen.poll()`. -/
structure ProcHandle where
  poll : Option Int
deriving DecidableEq

/-- A UDP listener thread handle; only liveness is consulted. -/
structure ListenerThread where
  is_alive : Bool
deriving DecidableEq

/-- A bound UDP socket (the parameters it was bound with). -/
structure UdpSocket where
  bind_address : String
  port : Nat
deriving DecidableEq

/-- The application-level configuration keys consulted by the embedded
methods (src/develop.py DEFAULT_APP_CONFIG). -/
structure AppConfig where
  retry_attempts : Nat
  retry_delay_seconds : Nat
  udp_packet_timeout_seconds : Int
deriving DecidableEq

/-- The mutable application state: the per-channel dictionaries of
FFmpegStreamerApp. -/
structure AppState where
  channels : List (String × ChannelData)
  processes : List (String × ProcHandle)
  udp_listeners : List (String × UdpSocket)
  udp_packet_timestamps : List (String × Int)
  udp_listener_threads : List (String × ListenerThread)
  udp_listener_active_flags : List (String × Bool)
  stream_stop_requested : List (String × Bool)
deriving DecidableEq

/-- FFmpegStreamerApp.get_input_url: builds the ffmpeg input URL from a
channel configuration (empty string when no usable input is configured). -/
def get_input_url (c : ChannelConfig) : String :=
  if c.input_type = "HLS (M3U8)" ∨ c.input_type = "YouTube" then c.input_url
  else if c.input_type = "UDP" then
    "udp://@" ++ c.input_ip ++ ":" ++ c.input_port
  else if c.input_type = "SRT" then
    "srt://" ++ c.input_ip ++ ":" ++ c.input_port ++ "?mode=" ++ c.srt_mode
  else ""

/-- Result of FFmpegStreamerApp._set_input_stream_status: the updated
channels dictionary and whether observers (update_status_indicators /
update_ui_for_channel) were scheduled. -/
structure SetStatusResult where
  channels : List (String × ChannelData)
  notified : Bool
deriving DecidableEq

/-- FFmpegStreamerApp._set_input_stream_status: stores the status and
schedules the UI observers only when the stored value actually changes. -/
def set_input_stream_status (channels : List (String × ChannelData))
    (chan status : String) : SetStatusResult :=
  match dictLookup channels chan with
  | none => ⟨channels, false⟩
  | some data =>
    if data.input_stream_status = status then
      ⟨channels, false⟩
    else
      ⟨dictInsert channels chan { data with input_stream_status := status }, true⟩

/-- The publish step of FFmpegStreamerApp._refresh_all_stream_statuses
(lines 1736-1744): store the freshly derived status and notify observers
only when it differs from the stored one. -/
def refresh_publish (data : ChannelData) (new_status : String) :
    ChannelData × Bool :=
  if data.input_stream_status = new_status then
    (data, false)
  else
    ({ data with input_stream_status := new_status }, true)

/-- The listener-liveness test of _refresh_all_stream_statuses:
`channel_name in self.udp_listener_threads and
self.udp_listener_threads[channel_name].is_alive()`. -/
def listenerAlive (st : AppState) (chan : String) : Bool :=
  match dictLookup st.udp_listener_threads chan with
  | some th => th.is_alive
  | none => false

/-- The status derivation of FFmpegStreamerApp._refresh_all_stream_statuses
for one channel, mirroring the branch structure of lines 1684-1734. -/
def refreshStatus (st : AppState) (cfg : AppConfig) (current_time : Int)
    (chan : String) (data : ChannelData) : String :=
  let is_streaming := dictContains st.processes chan
  if is_streaming then
    let input_is_healthy :=
      if data.config.input_type = "UDP" then
        match dictLookup st.udp_packet_timestamps chan with
        | some last =>
          if current_time - last > cfg.udp_packet_timeout_seconds then false
          else true
        | none => false
      else true
    if input_is_healthy then "streaming" else "unavailable"
  else
    if data.input_stream_status = "scanning" then "scanning"
    else if data.config.input_type = "UDP" then
      if listenerAlive st chan then
        match dictLookup st.udp_packet_timestamps chan with
        | some last =>
          if current_time - last ≤ cfg.udp_packet_timeout_seconds then
            "available"
          else "starting"
        | none => "starting"
      else "unknown"
    else if get_input_url data.config = "" then "unknown" else "available"

/-- Result of FFmpegStreamerApp._start_udp_listener: the successor state,
the boolean return value, and whether a multicast group membership was
requested (the IP_ADD_MEMBERSHIP setsockopt of lines 1478-1481, issued when
the target address starts with "224." or "239."). -/
structure StartListenerResult where
  state : AppState
  ok : Bool
  joinedMulticast : Bool
deriving DecidableEq

/-- FFmpegStreamerApp._start_udp_listener.  If a listener is already
registered for the channel the call returns True without touching any
state.  Otherwise the multicast membership is configured when the target
ip starts with "224." or "239.", and then the bind either succeeds
(`bindOk = true`: socket, bind-time packet timestamp, "starting" status,
stop flag and live thread are all registered) or raises OSError
(`bindOk = false`: status forced "unavailable", nothing registered). -/
def start_udp_listener (st : AppState) (chan ip : String) (port : Nat)
    (bind_address : String) (now : Int) (bindOk : Bool) :
    StartListenerResult :=
  if dictContains st.udp_listeners chan then
    ⟨st, true, false⟩
  else
    let joined := strStarts ip "224." || strStarts ip "239."
    if bindOk then
      let st1 : AppState :=
        { st with
          udp_listeners := dictInsert st.udp_listeners chan ⟨bind_address, port⟩
          udp_packet_timestamps := dictInsert st.udp_packet_timestamps chan now }
      let st2 : AppState :=
        { st1 with
          channels := (set_input_stream_status st1.channels chan "starting").channels }
      let st3 : AppState :=
        { st2 with
          udp_listener_active_flags :=
            dictInsert st2.udp_listener_active_flags chan false
          udp_listener_threads :=
            dictInsert st2.udp_listener_threads chan ⟨true⟩ }
      ⟨st3, true, joined⟩
    else
      ⟨{ st with
          channels := (set_input_stream_status st.channels chan "unavailable").channels },
        false, joined⟩

/-- FFmpegStreamerApp._stop_udp_listener: when a stop flag exists for the
channel, the listener thread, the socket, the last-packet timestamp and
the stop flag are all removed; otherwise nothing happens. -/
def stop_udp_listener (st : AppState) (chan : String) : AppState :=
  if dictContains st.udp_listener_active_flags chan then
    { st with
      udp_listener_threads := dictErase st.udp_listener_threads chan
      udp_listeners := dictErase st.udp_listeners chan
      udp_packet_timestamps := dictErase st.udp_packet_timestamps chan
      udp_listener_active_flags := dictErase st.udp_listener_active_flags chan }
  else st

/-- The datagram-arrival effect of FFmpegStreamerApp._udp_listener_thread
(line 1571): `self.udp_packet_timestamps[channel_name] = time.time()`. -/
def udp_packet_received (st : AppState) (chan : String) (now : Int) :
    AppState :=
  { st with
    udp_packet_timestamps := dictInsert st.udp_packet_timestamps chan now }

/-- The last-packet-age query of the UdpWatcher contract: the age when a
timestamp is recorded for the channel, and `none` (NotRunning) otherwise. -/
def lastPacketAge (st : AppState) (chan : String) (now : Int) : Option Int :=
  (dictLookup st.udp_packet_timestamps chan).map (fun t => now - t)

/-- The duplicate-UDP-input guard of FFmpegStreamerApp.start_stream
(lines 1247-1264): some other channel with an active process has the same
UDP input ip and port. -/
def duplicate_udp_conflict (channels : List (String × ChannelData))
    (processes : List (String × ProcHandle)) (chan : String)
    (cfg : ChannelConfig) : Bool :=
  (cfg.input_type = "UDP") &&
  channels.any (fun p =>
    (!(p.1 = chan)) && dictContains processes p.1 &&
    (p.2.config.input_type = "UDP") &&
    (p.2.config.input_ip = cfg.input_ip) &&
    (p.2.config.input_port = cfg.input_port))

/-- How a start_stream call resolved. -/
inductive StartStreamOutcome
  | noChannel
  | duplicateRejected
  | accepted
deriving DecidableEq

/-- Result of FFmpegStreamerApp.start_stream: outcome, successor state,
number of synchronous error dialogs shown, and whether the worker thread
running _start_stream_thread was spawned. -/
structure StartStreamResult where
  outcome : StartStreamOutcome
  state : AppState
  errorDialogs : Nat
  threadSpawned : Bool
deriving DecidableEq

/-- FFmpegStreamerApp.start_stream: no selected channel aborts; a
duplicate UDP input owned by another active channel shows one error dialog
and returns without spawning anything; otherwise the user-stop flag is
cleared, the status is set to "starting" and the worker thread is
spawned. -/
def start_stream (st : AppState) (current_channel : Option String) :
    StartStreamResult :=
  match current_channel with
  | none => ⟨.noChannel, st, 0, false⟩
  | some chan =>
    match dictLookup st.channels chan with
    | none => ⟨.noChannel, st, 0, false⟩
    | some data =>
      if duplicate_udp_conflict st.channels st.processes chan data.config then
        ⟨.duplicateRejected, st, 1, false⟩
      else
        let st1 : AppState :=
          { st with
            stream_stop_requested :=
              dictInsert st.stream_stop_requested chan false }
        let st2 : AppState :=
          { st1 with
            channels := (set_input_stream_status st1.channels chan "starting").channels }
        ⟨.accepted, st2, 0, true⟩

/-- Observable trace of one FFmpegStreamerApp._start_stream_thread run:
how many ffmpeg launch attempts were made, the delays slept between
attempts (in order), how many fatal messagebox notifications were shown,
and the status forced at the end (none when the launch succeeded). -/
structure LaunchTrace where
  attempts : Nat
  sleeps : List Nat
  fatalDialogs : Nat
  statusSet : Option String
deriving DecidableEq

/-- The retry skeleton of FFmpegStreamerApp._start_stream_thread
(lines 1407-1459): `launchOk n` tells whether the subprocess launch on the
attempt with retry_count = n succeeds.  On an exception the function
sleeps retry_delay_seconds and recurses with retry_count + 1 while
retry_count < retry_attempts; exhaustion forces "unavailable" and shows
one fatal dialog. -/
def start_stream_thread (cfg : AppConfig) (launchOk : Nat → Bool)
    (retry_count : Nat) : LaunchTrace :=
  if launchOk retry_count then
    ⟨1, [], 0, none⟩
  else if h : retry_count < cfg.retry_attempts then
    let rest := start_stream_thread cfg launchOk (retry_count + 1)
    ⟨rest.attempts + 1, cfg.retry_delay_seconds :: rest.sleeps,
      rest.fatalDialogs, rest.statusSet⟩
  else
    ⟨1, [], 1, some "unavailable"⟩
termination_by cfg.retry_attempts - retry_count

/-- Result of one pass of FFmpegStreamerApp._monitor_ffmpeg_processes over
one channel: successor state, the status that was set (if any), and how
many encoder restart attempts the monitor scheduled. -/
structure MonitorTick where
  state : AppState
  statusSet : Option String
  restartsScheduled : Nat
deriving DecidableEq

/-- One channel's handling inside FFmpegStreamerApp._monitor_ffmpeg_processes
(lines 1654-1671): a process that has exited is classified "unavailable"
(crash) or "unknown" (user-requested stop), removed from the process
table, and the user-stop flag is cleared.  The monitor never schedules a
restart ("No automatic restarts are triggered by this monitor"). -/
def monitor_tick_channel (st : AppState) (chan : String) : MonitorTick :=
  match dictLookup st.processes chan with
  | none => ⟨st, none, 0⟩
  | some proc =>
    match proc.poll with
    | none => ⟨st, none, 0⟩
    | some _ =>
      let userStop := (dictLookup st.stream_stop_requested chan).getD false
      let new_status := if userStop then "unknown" else "unavailable"
      let st1 : AppState :=
        { st with
          channels := (set_input_stream_status st.channels chan new_status).channels
          processes := dictErase st.processes chan
          stream_stop_requested :=
            dictInsert st.stream_stop_requested chan false }
      ⟨st1, some new_status, 0⟩

/-- Whether a program carries a video elementary stream (the
`any(stream.get('codec_type') == 'video' ...)` test of line 2052). -/
def programHasVideo (p : ProgramInfo) : Bool :=
  p.streams.any (fun s => s.codec_type == "video")

/-- The combobox display item built for one program in
_update_programs_list (lines 2047-2058). -/
def displayItem (p : ProgramInfo) : String :=
  (p.service_name.getD "Unknown") ++ " (ID: " ++ p.program_id ++ ") " ++
    (if programHasVideo p then "[Video]" else "[No Video]")

/-- The program re-selection loop of _update_programs_list
(lines 2066-2075), tracking the combobox value: a matching item is
selected and the loop breaks; on every non-matching item the misplaced
inner branch selects the first entry (`first`) when the display list is
non-empty.  Returns the combobox value at loop exit and the `found`
flag. -/
def selectLoop (needle : String) (first : Option String) :
    List String → Option String → Option String × Bool
  | [], combo => (combo, false)
  | item :: rest, combo =>
    if strContains item needle then (some item, true)
    else
      selectLoop needle first rest
        (match first with
         | some f => some f
         | none => combo)

/-- The full re-selection logic for a previously selected program id
(lines 2066-2077): run the loop, then the trailing `if not found` branch
overwrites the combobox with "No services found". -/
def reselectCombo (selected : String) (display_list : List String) :
    Option String :=
  let needle := "(ID: " ++ selected ++ ")"
  let r := selectLoop needle display_list.head? display_list none
  if r.2 then r.1 else some "No services found"

/-- Result of FFmpegStreamerApp._update_programs_list: the updated
channels dictionary, the status passed to _set_input_stream_status, and
the final program combobox text (`none` when the combobox was not
touched, i.e. the channel is not the currently selected one). -/
structure UpdateProgramsResult where
  channels : List (String × ChannelData)
  statusSet : Option String
  comboValue : Option String
deriving DecidableEq

/-- FFmpegStreamerApp._update_programs_list (lines 2025-2084): an empty
program list marks the channel "unavailable" and clears the video flag; a
non-empty list replaces the stored program list wholesale, recomputes the
video flag, updates the program combobox for the currently selected
channel (re-selecting the saved program id via the loop of lines
2066-2077, else the first entry) and marks the channel "available". -/
def update_programs_list (channels : List (String × ChannelData))
    (current_channel : Option String) (ps : List ProgramInfo)
    (chan : String) : UpdateProgramsResult :=
  match dictLookup channels chan with
  | none => ⟨channels, none, none⟩
  | some data =>
    match ps with
    | [] =>
      let combo :=
        if current_channel = some chan then some "No services found" else none
      let r := set_input_stream_status channels chan "unavailable"
      let chs :=
        match dictLookup r.channels chan with
        | some d =>
          dictInsert r.channels chan { d with has_any_video_stream_detected := false }
        | none => r.channels
      ⟨chs, some "unavailable", combo⟩
    | _ :: _ =>
      let data1 := { data with programs := ps }
      let chs1 := dictInsert channels chan data1
      let display_list := ps.map displayItem
      let hasAny := ps.any programHasVideo
      let data2 := { data1 with has_any_video_stream_detected := hasAny }
      let chs2 := dictInsert chs1 chan data2
      let combo :=
        if current_channel = some chan then
          if data.config.program_id = "" then
            match display_list.head? with
            | some h => some h
            | none => some "No services found"
          else
            reselectCombo data.config.program_id display_list
        else none
      let r := set_input_stream_status chs2 chan "available"
      ⟨r.channels, some "available", combo⟩

/-- Result of FFmpegStreamerApp.scan_services: the updated channels
dictionary, whether update_status_indicators was invoked, and whether the
ffprobe worker thread was spawned. -/
structure ScanStartResult where
  channels : List (String × ChannelData)
  notified : Bool
  probeSpawned : Bool
deriving DecidableEq

/-- FFmpegStreamerApp.scan_services (lines 1949-1974): with no selected
channel nothing happens; with a selected channel whose UI input type is
not "UDP" the status is reset to "unknown" through
_set_input_stream_status; with a missing input URL it is set to
"unavailable" the same way; otherwise the stored status is assigned
"scanning" directly (bypassing the change guard) and
update_status_indicators is called unconditionally before the ffprobe
thread starts. -/
def scan_services (channels : List (String × ChannelData))
    (current_channel : Option String) (input_type_var : String) :
    ScanStartResult :=
  match current_channel with
  | none => ⟨channels, false, false⟩
  | some chan =>
    if input_type_var = "UDP" then
      match dictLookup channels chan with
      | none => ⟨channels, false, false⟩
      | some data =>
        if get_input_url data.config = "" then
          let r := set_input_stream_status channels chan "unavailable"
          ⟨r.channels, r.notified, false⟩
        else
          ⟨dictInsert channels chan
            { data with input_stream_status := "scanning" }, true, true⟩
    else
      let r := set_input_stream_status channels chan "unknown"
      ⟨r.channels, r.notified, false⟩

/-- Numeric value of a decimal digit character. -/
def digitVal (c : Char) : Option Nat :=
  if c < '0' ∨ '9' < c then none else some (c.toNat - 48)

/-- Decimal reading of a non-empty digit string. -/
def digitsToNatAux : List Char → Nat → Option Nat
  | [], acc => some acc
  | c :: cs, acc =>
    match digitVal c with
    | some d => digitsToNatAux cs (acc * 10 + d)
    | none => none

/-- Decimal reading of a character list; none when empty or non-numeric. -/
def digitsToNat : List Char → Option Nat
  | [] => none
  | c :: cs => digitsToNatAux (c :: cs) 0

/-- Split a character list at dots. -/
def splitDots : List Char → List (List Char)
  | [] => [[]]
  | c :: cs =>
    if c = '.' then [] :: splitDots cs
    else
      match splitDots cs with
      | [] => [[c]]
      | w :: ws => (c :: w) :: ws

/-- Modelled from the spec: the multicast address range of the UdpWatcher
contract, "the multicast range (224.0.0.0 - 239.255.255.255)": a
well-formed dotted-quad IPv4 address whose first octet lies between 224
and 239. -/
def specMulticastRange (ip : String) : Bool :=
  match (splitDots ip.data).map digitsToNat with
  | [some a, some b, some c, some d] =>
    if 224 ≤ a ∧ a ≤ 239 ∧ b ≤ 255 ∧ c ≤ 255 ∧ d ≤ 255 then true else false
  | _ => false

/-- The application configuration used by the concrete examples
(DEFAULT_CONFIG: retry_attempts 5, retry_delay_seconds 10,
udp_packet_timeout_seconds 10). -/
def exCfg : AppConfig := ⟨5, 10, 10⟩

/-- An application state with every per-channel dictionary empty. -/
def emptyState : AppState := ⟨[], [], [], [], [], [], []⟩

/-- Example channel data: a UDP channel on 239.1.1.1:5000. -/
def exC1Data : ChannelData :=
  ⟨⟨"UDP", "239.1.1.1", "5000", "", "caller", ""⟩, "Ch 1", "starting", [], false⟩

/-- Example state: the encoder of ch1 runs and a packet arrived at time 95. -/
def exC1St : AppState :=
  ⟨[("ch1", exC1Data)], [("ch1", ⟨none⟩)], [("ch1", ⟨"0.0.0.0", 5000⟩)],
    [("ch1", 95)], [("ch1", ⟨true⟩)], [("ch1", false)], []⟩

/-- Example channel data: a freshly configured UDP channel, status unknown,
that has never received a packet. -/
def exC2Data : ChannelData :=
  ⟨⟨"UDP", "239.1.1.1", "5000", "", "caller", ""⟩, "Ch 1", "unknown", [], false⟩

/-- The channel data after the listener start stored its "starting" status. -/
def exC2Data1 : ChannelData :=
  { exC2Data with input_stream_status := "starting" }

/-- Example state before any listener is started for ch1. -/
def exC2St0 : AppState := ⟨[("ch1", exC2Data)], [], [], [], [], [], []⟩

/-- The state right after the UDP listener for ch1 binds at time 100; no
packet has ever been received. -/
def exC2St1 : AppState :=
  (start_udp_listener exC2St0 "ch1" "239.1.1.1" 5000 "0.0.0.0" 100 true).state

/-- Example configuration shared by the two conflicting channels of the
duplicate-input scenario. -/
def exC4Cfg : ChannelConfig := ⟨"UDP", "239.1.1.1", "5000", "", "caller", ""⟩

/-- The channel already streaming from 239.1.1.1:5000. -/
def exC4Data1 : ChannelData := ⟨exC4Cfg, "Ch 1", "streaming", [], false⟩

/-- The second channel configured with the same UDP input. -/
def exC4Data2 : ChannelData := ⟨exC4Cfg, "Ch 2", "unknown", [], false⟩

/-- Example state: ch1 and ch2 share the UDP input and ch1's encoder runs. -/
def exC4St : AppState :=
  ⟨[("ch1", exC4Data1), ("ch2", exC4Data2)], [("ch1", ⟨none⟩)], [], [], [], [], []⟩

/-- Example channel data for the crash-monitor scenario. -/
def exC6Data : ChannelData :=
  ⟨⟨"UDP", "239.1.1.1", "5000", "", "caller", ""⟩, "Ch 1", "streaming", [], false⟩

/-- Example state: the encoder of ch1 has exited with code 1 and the stop
was not user-initiated. -/
def exC6St : AppState :=
  ⟨[("ch1", exC6Data)], [("ch1", ⟨some 1⟩)], [], [], [], [], [("ch1", false)]⟩

/-- The two programs returned by the example scan: one with video, one
audio-only; the channel's saved program id 5 is in neither. -/
def exC8Programs : List ProgramInfo :=
  [⟨"1", some "SvcA", [⟨"video"⟩]⟩, ⟨"2", some "SvcB", [⟨"audio"⟩]⟩]

/-- Example channel whose saved program id is 5. -/
def exC8Data : ChannelData :=
  ⟨⟨"UDP", "239.1.1.1", "5000", "", "caller", "5"⟩, "Ch 1", "scanning", [], false⟩

/-- The channels dictionary for the program-reselection scenario. -/
def exC8Channels : List (String × ChannelData) := [("ch1", exC8Data)]

/-- Example UDP channel with a probe already in flight: the stored status
is "scanning". -/
def exC9ScanData : ChannelData :=
  ⟨⟨"UDP", "239.1.1.1", "5000", "", "caller", ""⟩, "Ch 1", "scanning", [], false⟩

/-- The channels dictionary for the status-publication scenario. -/
def exC9ScanChannels : List (String × ChannelData) := [("ch1", exC9ScanData)]

/-- Example state with a fully registered listener for ch1 (socket, thread,
bind-time timestamp and stop flag). -/
def exC10St : AppState :=
  ⟨[], [], [("ch1", ⟨"0.0.0.0", 5000⟩)], [("ch1", 100)], [("ch1", ⟨true⟩)],
    [("ch1", false)], []⟩

theorem dictLookup_insert_self {α : Type} (d : List (String × α)) (k : String)
    (v : α) : dictLookup (dictInsert d k v) k = some v := by
  induction d with
  | nil => simp [dictInsert, dictLookup]
  | cons p rest ih =>
    obtain ⟨k', v'⟩ := p
    by_cases h : k' = k
    · simp [dictInsert, h, dictLookup]
    · simp [dictInsert, h, dictLookup, ih]

theorem dictLookup_erase_self {α : Type} (d : List (String × α)) (k : String) :
    dictLookup (dictErase d k) k = none := by
  induction d with
  | nil => simp [dictErase, dictLookup]
  | cons p rest ih =>
    obtain ⟨k', v'⟩ := p
    by_cases h : k' = k
    · simp [dictErase, h, ih]
    · simp [dictErase, h, dictLookup, ih]

theorem dictLookup_mem {α : Type} {d : List (String × α)} {k : String}
    {v : α} (h : dictLookup d k = some v) : (k, v) ∈ d := by
  induction d with
  | nil => simp [dictLookup] at h
  | cons p rest ih =>
    obtain ⟨k', v'⟩ := p
    by_cases hk : k' = k
    · subst hk
      simp [dictLookup] at h
      subst h
      exact List.mem_cons_self _ _
    · simp [dictLookup, hk] at h
      exact List.mem_cons_of_mem _ (ih h)

/-- Claim C3: starting the UDP listener a second time for the same channel
without an intervening stop is a no-op returning success: after a first
start (here a successful one), a second start call returns True, opens no
socket, joins no group and leaves the whole application state unchanged. -/
theorem start_udp_listener_second_call_noop (st : AppState) (chan ip : String)
    (port : Nat) (b : String) (t1 : Int) (ip2 : String) (port2 : Nat)
    (b2 : String) (t2 : Int) (bindOk2 : Bool) :
    start_udp_listener (start_udp_listener st chan ip port b t1 true).state
      chan ip2 port2 b2 t2 bindOk2 =
      ⟨(start_udp_listener st chan ip port b t1 true).state, true, false⟩ := by
  have hmem : dictContains
      (start_udp_listener st chan ip port b t1 true).state.udp_listeners chan
        = true := by
    by_cases h : dictContains st.udp_listeners chan
    · simp [start_udp_listener, h]
    · simp only [dictContains] at h
      simp [start_udp_listener, h, dictContains, dictLookup_insert_self]
  have hguard : ∀ s : AppState, dictContains s.udp_listeners chan = true →
      start_udp_listener s chan ip2 port2 b2 t2 bindOk2 = ⟨s, true, false⟩ := by
    intro s hs
    simp [start_udp_listener, hs]
  exact hguard _ hmem

/-- Claim C5: when every ffmpeg launch attempt throws and retry_attempts is
2, exactly two retries are performed with the configured delay slept
between attempts (three launch attempts in total), the channel status is
forced to "unavailable" and the fatal dialog is shown exactly once. -/
theorem retry_exhaustion_trace (d : Nat) :
    start_stream_thread ⟨2, d, 10⟩ (fun _ => false) 0 =
      ⟨3, [d, d], 1, some "unavailable"⟩ := by
  rw [start_stream_thread, start_stream_thread, start_stream_thread]
  simp

/-- Counterexample to claim C9: ch1's stored status is already "scanning",
yet a repeated scan start notifies the indicator observers
(update_status_indicators is called unconditionally by scan_services
after it hand-sets the status) while the stored value does not change —
so notification is not confined to a change-driven single point. -/
theorem scan_notifies_without_change :
    (dictLookup exC9ScanChannels "ch1").map
      (fun d => d.input_stream_status) = some "scanning" ∧
    (scan_services exC9ScanChannels (some "ch1") "UDP").notified = true ∧
    (dictLookup (scan_services exC9ScanChannels (some "ch1") "UDP").channels
      "ch1").map (fun d => d.input_stream_status) = some "scanning" := by
  decide

/-- Claim C9 (amended): _set_input_stream_status and the publish step of
_refresh_all_stream_statuses are change-driven and idempotent — they
notify observers exactly when the stored status changes and leave the
state untouched otherwise — but they are not the only notification
point: scan_services stores "scanning" directly, bypassing the change
guard, and calls update_status_indicators unconditionally, so a scan
started while the status is already "scanning" notifies observers
without any change. -/
theorem status_publication_change_driven_except_scan
    (channels : List (String × ChannelData)) (chan : String)
    (data : ChannelData) (status : String)
    (h : dictLookup channels chan = some data) :
    ((set_input_stream_status channels chan status).notified = true ↔
      ¬ data.input_stream_status = status)
    ∧ (data.input_stream_status = status →
        set_input_stream_status channels chan status = ⟨channels, false⟩)
    ∧ (∀ d new_status,
        ((refresh_publish d new_status).2 = true ↔
          ¬ d.input_stream_status = new_status)
        ∧ (d.input_stream_status = new_status →
            refresh_publish d new_status = (d, false)))
    ∧ (¬ get_input_url data.config = "" →
        (scan_services channels (some chan) "UDP").notified = true ∧
        (scan_services channels (some chan) "UDP").channels =
          dictInsert channels chan
            { data with input_stream_status := "scanning" }) := by
  refine ⟨?_, ?_, ?_, ?_⟩
  · by_cases heq : data.input_stream_status = status <;>
      simp [set_input_stream_status, h, heq]
  · intro heq
    simp [set_input_stream_status, h, heq]
  · intro d new_status
    by_cases heq : d.input_stream_status = new_status <;>
      simp [refresh_publish, heq]
  · intro hurl
    simp [scan_services, h, hurl]

/-- Witness for the amended claim C9 at a concrete input: ch1 already
stores "scanning" and a scan start still notifies the observers. -/
theorem status_publication_except_scan_witness :
    dictLookup exC9ScanChannels "ch1" = some exC9ScanData ∧
    exC9ScanData.input_stream_status = "scanning" ∧
    ¬ get_input_url exC9ScanData.config = "" ∧
    (scan_services exC9ScanChannels (some "ch1") "UDP").notified = true :=
  ⟨by decide, rfl, by decide,
    ((status_publication_change_driven_except_scan exC9ScanChannels "ch1"
      exC9ScanData "scanning" (by decide)).2.2.2 (by decide)).1⟩

/-- Claim C10: stopping a channel's UDP listener removes the channel from
all four listener dictionaries (threads, sockets, packet timestamps, stop
flags), so a later packet-age query answers NotRunning instead of a stale
age. -/
theorem stop_listener_clears_all_maps (st : AppState) (chan : String)
    (now : Int) (h : dictContains st.udp_listener_active_flags chan = true) :
    dictLookup (stop_udp_listener st chan).udp_listener_threads chan = none ∧
    dictLookup (stop_udp_listener st chan).udp_listeners chan = none ∧
    dictLookup (stop_udp_listener st chan).udp_packet_timestamps chan = none ∧
    dictLookup (stop_udp_listener st chan).udp_listener_active_flags chan
      = none ∧
    lastPacketAge (stop_udp_listener st chan) chan now = none := by
  simp [stop_udp_listener, h, lastPacketAge, dictLookup_erase_self]

/-- Witness for claim C10 at a concrete input: a fully registered listener
for ch1 is stopped and the packet-age query answers NotRunning. -/
theorem stop_listener_clears_all_maps_witness :
    dictContains exC10St.udp_listener_active_flags "ch1" = true ∧
    lastPacketAge (stop_udp_listener exC10St "ch1") "ch1" 200 = none :=
  ⟨by decide,
    (stop_listener_clears_all_maps exC10St "ch1" 200 (by decide)).2.2.2.2⟩

/-- Claim C1: the status derived by a reconciliation pass for a UDP channel
follows the state-machine table: with the encoder running, "streaming"
exactly when a recorded packet age is within the timeout and "unavailable"
otherwise; with the encoder not running and no probe in flight, a live
listener with a recent packet gives "available", a live listener without
one gives "starting", and no live listener gives "unknown". -/
theorem refresh_status_udp_table (st : AppState) (cfg : AppConfig) (t : Int)
    (chan : String) (data : ChannelData)
    (hudp : data.config.input_type = "UDP") :
    (dictContains st.processes chan = true →
      ((refreshStatus st cfg t chan data = "streaming" ↔
        ∃ last, dictLookup st.udp_packet_timestamps chan = some last ∧
          t - last ≤ cfg.udp_packet_timeout_seconds) ∧
       (refreshStatus st cfg t chan data = "unavailable" ↔
        ¬ ∃ last, dictLookup st.udp_packet_timestamps chan = some last ∧
          t - last ≤ cfg.udp_packet_timeout_seconds)))
    ∧ (dictContains st.processes chan = false →
       data.input_stream_status ≠ "scanning" →
      ((listenerAlive st chan = true →
        ((∃ last, dictLookup st.udp_packet_timestamps chan = some last ∧
            t - last ≤ cfg.udp_packet_timeout_seconds) →
          refreshStatus st cfg t chan data = "available") ∧
        ((¬ ∃ last, dictLookup st.udp_packet_timestamps chan = some last ∧
            t - last ≤ cfg.udp_packet_timeout_seconds) →
          refreshStatus st cfg t chan data = "starting"))
       ∧ (listenerAlive st chan = false →
          refreshStatus st cfg t chan data = "unknown"))) := by
  constructor
  · intro hrun
    cases hts : dictLookup st.udp_packet_timestamps chan with
    | none =>
      have hstat : refreshStatus st cfg t chan data = "unavailable" := by
        simp [refreshStatus, hrun, hudp, hts]
      rw [hstat]
      constructor
      · constructor
        · intro hc
          exact absurd hc (by decide)
        · rintro ⟨last, hl, -⟩
          exact Option.noConfusion hl
      · constructor
        · intro _
          rintro ⟨last, hl, -⟩
          exact Option.noConfusion hl
        · intro _
          rfl
    | some last =>
      by_cases hcmp : t - last > cfg.udp_packet_timeout_seconds
      · have hstat : refreshStatus st cfg t chan data = "unavailable" := by
          simp [refreshStatus, hrun, hudp, hts, hcmp]
        rw [hstat]
        constructor
        · constructor
          · intro hc
            exact absurd hc (by decide)
          · rintro ⟨l, hl, hle⟩
            injection hl with hl
            subst hl
            omega
        · constructor
          · intro _
            rintro ⟨l, hl, hle⟩
            injection hl with hl
            subst hl
            omega
          · intro _
            rfl
      · have hstat : refreshStatus st cfg t chan data = "streaming" := by
          simp [refreshStatus, hrun, hudp, hts, hcmp]
        rw [hstat]
        constructor
        · constructor
          · intro _
            exact ⟨last, rfl, by omega⟩
          · intro _
            rfl
        · constructor
          · intro hc
            exact absurd hc (by decide)
          · intro hne
            exact absurd ⟨last, rfl, by omega⟩ hne
  · intro hrun hscan
    constructor
    · intro halive
      constructor
      · rintro ⟨last, hl, hle⟩
        simp [refreshStatus, hrun, hscan, hudp, halive, hl, hle]
      · intro hne
        cases hts : dictLookup st.udp_packet_timestamps chan with
        | none => simp [refreshStatus, hrun, hscan, hudp, halive, hts]
        | some last =>
          have hgt : ¬ (t - last ≤ cfg.udp_packet_timeout_seconds) := by
            intro hle
            exact hne ⟨last, hts, hle⟩
          simp [refreshStatus, hrun, hscan, hudp, halive, hts, hgt]
    · intro hdead
      simp [refreshStatus, hrun, hscan, hudp, hdead]

/-- Witness for claim C1 at a concrete input: ch1's encoder runs and the
last packet (time 95) is within the 10-second timeout at time 100, so the
derived status is "streaming". -/
theorem refresh_status_udp_table_witness :
    exC1Data.config.input_type = "UDP" ∧
    dictContains exC1St.processes "ch1" = true ∧
    refreshStatus exC1St exCfg 100 "ch1" exC1Data = "streaming" :=
  ⟨rfl, by decide,
    ((refresh_status_udp_table exC1St exCfg 100 "ch1" exC1Data rfl).1
      (by decide)).1.mpr ⟨95, by decide, by decide⟩⟩

/-- Counterexample to claim C2: the listener for ch1 binds at time 100 and
no packet ever arrives, yet the reconciliation pass at time 101 already
derives "available" instead of staying at "starting", because
_start_udp_listener seeds the last-packet timestamp with the bind time. -/
theorem udp_available_before_first_packet :
    dictLookup exC2St1.channels "ch1" = some exC2Data1 ∧
    dictLookup exC2St1.udp_packet_timestamps "ch1" = some 100 ∧
    refreshStatus exC2St1 exCfg 101 "ch1" exC2Data1 = "available" ∧
    refreshStatus exC2St1 exCfg 101 "ch1" exC2Data1 ≠ "starting" := by
  decide

/-- Claim C2 (amended): for a UDP channel that has never received a packet
the status is "unknown" before the listener starts, and "starting" is
stored immediately after the bind; but because the bind seeds the
last-packet timestamp, any reconciliation within the timeout of the bind
derives "available" even though no packet has arrived, and only once the
timeout elapses packet-free does the derivation revert to "starting"; a
packet arrival then yields "available" on any tick within the timeout of
its arrival. -/
theorem udp_listener_lifecycle (st0 : AppState) (cfg : AppConfig)
    (chan ip : String) (port : Nat) (b : String) (t0 : Int)
    (data : ChannelData)
    (hch : dictLookup st0.channels chan = some data)
    (hudp : data.config.input_type = "UDP")
    (hinit : data.input_stream_status = "unknown")
    (hnorun : dictContains st0.processes chan = false)
    (hnoth : dictLookup st0.udp_listener_threads chan = none)
    (hnol : dictContains st0.udp_listeners chan = false) :
    (∀ t, refreshStatus st0 cfg t chan data = "unknown")
    ∧ dictLookup (start_udp_listener st0 chan ip port b t0 true).state.channels
        chan = some { data with input_stream_status := "starting" }
    ∧ (∀ t, t - t0 ≤ cfg.udp_packet_timeout_seconds →
        refreshStatus (start_udp_listener st0 chan ip port b t0 true).state
          cfg t chan { data with input_stream_status := "starting" }
          = "available")
    ∧ (∀ t, t - t0 > cfg.udp_packet_timeout_seconds →
        refreshStatus (start_udp_listener st0 chan ip port b t0 true).state
          cfg t chan { data with input_stream_status := "starting" }
          = "starting")
    ∧ (∀ tp t, t - tp ≤ cfg.udp_packet_timeout_seconds →
        refreshStatus
          (udp_packet_received
            (start_udp_listener st0 chan ip port b t0 true).state chan tp)
          cfg t chan { data with input_stream_status := "starting" }
          = "available") := by
  have hS : (start_udp_listener st0 chan ip port b t0 true).state =
      { channels := (set_input_stream_status st0.channels chan "starting").channels
        processes := st0.processes
        udp_listeners := dictInsert st0.udp_listeners chan ⟨b, port⟩
        udp_packet_timestamps := dictInsert st0.udp_packet_timestamps chan t0
        udp_listener_threads := dictInsert st0.udp_listener_threads chan ⟨true⟩
        udp_listener_active_flags :=
          dictInsert st0.udp_listener_active_flags chan false
        stream_stop_requested := st0.stream_stop_requested } := by
    simp [start_udp_listener, hnol]
  have hchans : (set_input_stream_status st0.channels chan "starting").channels =
      dictInsert st0.channels chan { data with input_stream_status := "starting" } := by
    simp [set_input_stream_status, hch, hinit]
  refine ⟨?_, ?_, ?_, ?_, ?_⟩
  · intro t
    simp [refreshStatus, listenerAlive, hnorun, hnoth, hudp, hinit]
  · rw [hS]
    simp only [hchans]
    exact dictLookup_insert_self st0.channels chan _
  · intro t ht
    rw [hS]
    simp [refreshStatus, listenerAlive, hnorun, hudp, dictLookup_insert_self, ht]
  · intro t ht
    have hgt : ¬ (t - t0 ≤ cfg.udp_packet_timeout_seconds) := by omega
    rw [hS]
    simp [refreshStatus, listenerAlive, hnorun, hudp, dictLookup_insert_self, hgt]
  · intro tp t ht
    rw [hS]
    simp [udp_packet_received, refreshStatus, listenerAlive, hnorun, hudp,
      dictLookup_insert_self, ht]

/-- Witness for the amended claim C2 at a concrete input: before any
listener exists for ch1 the derived status is "unknown". -/
theorem udp_listener_lifecycle_witness :
    dictLookup exC2St0.channels "ch1" = some exC2Data ∧
    exC2Data.config.input_type = "UDP" ∧
    exC2Data.input_stream_status = "unknown" ∧
    dictContains exC2St0.processes "ch1" = false ∧
    refreshStatus exC2St0 exCfg 50 "ch1" exC2Data = "unknown" :=
  ⟨by decide, rfl, rfl, by decide,
    (udp_listener_lifecycle exC2St0 exCfg "ch1" "239.1.1.1" 5000 "0.0.0.0" 100
      exC2Data (by decide) rfl rfl (by decide) (by decide) (by decide)).1 50⟩

/-- Claim C4: a start request for a channel whose UDP input (ip, port) is
already owned by another channel with a running encoder is rejected
synchronously with one error dialog: the state is untouched, no worker
thread is spawned, hence no encoder process is created and nothing is
retried. -/
theorem duplicate_udp_start_rejected (st : AppState) (chan1 chan2 : String)
    (data1 data2 : ChannelData)
    (h1 : dictLookup st.channels chan1 = some data1)
    (h2 : dictLookup st.channels chan2 = some data2)
    (hne : chan1 ≠ chan2)
    (hudp1 : data1.config.input_type = "UDP")
    (hudp2 : data2.config.input_type = "UDP")
    (hip : data1.config.input_ip = data2.config.input_ip)
    (hport : data1.config.input_port = data2.config.input_port)
    (hrun : dictContains st.processes chan1 = true) :
    start_stream st (some chan2) =
      ⟨StartStreamOutcome.duplicateRejected, st, 1, false⟩ := by
  have hconf : duplicate_udp_conflict st.channels st.processes chan2
      data2.config = true := by
    simp only [duplicate_udp_conflict, hudp2, Bool.and_eq_true,
      List.any_eq_true, decide_eq_true_eq]
    refine ⟨trivial, (chan1, data1), dictLookup_mem h1, ?_⟩
    simp [hne, hrun, hudp1, hip, hport]
  simp [start_stream, h2, hconf]

/-- Witness for claim C4 at a concrete input: ch1 streams from
239.1.1.1:5000 and starting ch2 with the same UDP input is rejected. -/
theorem duplicate_udp_start_rejected_witness :
    dictLookup exC4St.channels "ch1" = some exC4Data1 ∧
    dictLookup exC4St.channels "ch2" = some exC4Data2 ∧
    ("ch1" : String) ≠ "ch2" ∧
    dictContains exC4St.processes "ch1" = true ∧
    start_stream exC4St (some "ch2") =
      ⟨StartStreamOutcome.duplicateRejected, exC4St, 1, false⟩ :=
  ⟨by decide, by decide, by decide, by decide,
    duplicate_udp_start_rejected exC4St "ch1" "ch2" exC4Data1 exC4Data2
      (by decide) (by decide) (by decide) rfl rfl rfl rfl (by decide)⟩

/-- Counterexample to claim C6: ch1's encoder has exited with code 1 and
its stop was not user-initiated; the monitor pass classifies the channel
"unavailable" but schedules zero restart attempts, not exactly one. -/
theorem monitor_schedules_no_restart :
    (monitor_tick_channel exC6St "ch1").statusSet = some "unavailable" ∧
    (monitor_tick_channel exC6St "ch1").restartsScheduled ≠ 1 := by
  decide

/-- Claim C6 (amended): after an encoder exit that was not user-requested,
the monitor sets the status to "unavailable", removes the process entry
and schedules no restart at all (this variant never auto-restarts); a
second monitor pass on the resulting state is a complete no-op, so exit
handling is never duplicated. -/
theorem monitor_exit_unavailable_no_restart (st : AppState) (chan : String)
    (proc : ProcHandle) (code : Int)
    (hp : dictLookup st.processes chan = some proc)
    (hpoll : proc.poll = some code)
    (hstop : (dictLookup st.stream_stop_requested chan).getD false = false) :
    (monitor_tick_channel st chan).statusSet = some "unavailable" ∧
    (monitor_tick_channel st chan).restartsScheduled = 0 ∧
    dictLookup (monitor_tick_channel st chan).state.processes chan = none ∧
    monitor_tick_channel (monitor_tick_channel st chan).state chan =
      ⟨(monitor_tick_channel st chan).state, none, 0⟩ := by
  have hnone : dictLookup (monitor_tick_channel st chan).state.processes chan
      = none := by
    simp [monitor_tick_channel, hp, hpoll, hstop, dictLookup_erase_self]
  refine ⟨?_, ?_, hnone, ?_⟩
  · simp [monitor_tick_channel, hp, hpoll, hstop]
  · simp [monitor_tick_channel, hp, hpoll, hstop]
  · have hgen : ∀ s : AppState, dictLookup s.processes chan = none →
        monitor_tick_channel s chan = ⟨s, none, 0⟩ := by
      intro s hs
      simp [monitor_tick_channel, hs]
    exact hgen _ hnone

/-- Witness for the amended claim C6 at a concrete input. -/
theorem monitor_exit_unavailable_no_restart_witness :
    dictLookup exC6St.processes "ch1" = some ⟨some 1⟩ ∧
    (dictLookup exC6St.stream_stop_requested "ch1").getD false = false ∧
    (monitor_tick_channel exC6St "ch1").statusSet = some "unavailable" :=
  ⟨by decide, by decide,
    (monitor_exit_unavailable_no_restart exC6St "ch1" ⟨some 1⟩ 1 (by decide)
      rfl (by decide)).1⟩

/-- Counterexample to claim C7: 225.0.0.1 lies in the multicast range
224.0.0.0 - 239.255.255.255, but _start_udp_listener only tests the
literal address prefixes "224." and "239." and so requests no group
membership for it. -/
theorem multicast_range_join_counterexample :
    specMulticastRange "225.0.0.1" = true ∧
    (start_udp_listener emptyState "ch1" "225.0.0.1" 5000 "0.0.0.0" 100
      true).joinedMulticast = false := by
  decide

/-- Claim C7 (amended): on a fresh listener start the multicast membership
is requested exactly when the target address starts with "224." or
"239."; multicast addresses with first octet 225 through 238 are never
joined. -/
theorem multicast_join_condition (st : AppState) (chan ip : String)
    (port : Nat) (b : String) (now : Int) (bindOk : Bool)
    (hfresh : dictContains st.udp_listeners chan = false) :
    ((start_udp_listener st chan ip port b now bindOk).joinedMulticast = true
      ↔ (strStarts ip "224." = true ∨ strStarts ip "239." = true)) := by
  cases bindOk <;> simp [start_udp_listener, hfresh]

/-- Witness for the amended claim C7 at a concrete input: the membership
is requested for 239.2.2.6. -/
theorem multicast_join_condition_witness :
    dictContains emptyState.udp_listeners "ch1" = false ∧
    (start_udp_listener emptyState "ch1" "239.2.2.6" 5678 "0.0.0.0" 100
      true).joinedMulticast = true :=
  ⟨by decide,
    (multicast_join_condition emptyState "ch1" "239.2.2.6" 5678 "0.0.0.0" 100
      true (by decide)).mpr (Or.inr (by decide))⟩

/-- Claim C8, evaluated at the failing input: the scan returns programs 1
and 2 while the channel's saved program id is 5; the stored program list
is replaced wholesale and the status becomes "available" as claimed, but
the program combobox ends up showing "No services found" instead of
defaulting to the first entry, because the trailing not-found branch of
_update_programs_list overwrites the first-entry selection made inside
the loop. -/
theorem update_programs_reselect_missing_overwritten :
    (update_programs_list exC8Channels (some "ch1") exC8Programs
      "ch1").statusSet = some "available" ∧
    dictLookup (update_programs_list exC8Channels (some "ch1") exC8Programs
      "ch1").channels "ch1" =
      some { exC8Data with
        programs := exC8Programs
        has_any_video_stream_detected := true
        input_stream_status := "available" } ∧
    (update_programs_list exC8Channels (some "ch1") exC8Programs
      "ch1").comboValue = some "No services found" ∧
    (update_programs_list exC8Channels (some "ch1") exC8Programs
      "ch1").comboValue ≠
      some (displayItem ⟨"1", some "SvcA", [⟨"video"⟩]⟩) := by
  decide
